import Mathlib

/-! Verification of the arexx-tap daemon core: the 64-byte wire-protocol
codec with calibration lookup (src/arexx.rs), the hotplug device-session
state machine (src/usb.rs), and the polling engine
(Arexx::read_record), as a shallow embedding with theorems about its
behaviour.

Modelling conventions:
* Bytes are naturals below 256; frames are lists of bytes.
* DateTime values are rational numbers of seconds relative to the
  reference epoch 2000-01-01T00:00:00Z; the chrono num_seconds
  truncation of a Duration to whole seconds is truncation toward zero,
  and the Rust cast of an i64 to u32 wraps modulo 2 ^ 32 with a
  non-negative result, which is Int.emod here.
* The f32 calibration arithmetic is modelled as exact rational
  arithmetic; the specification states its value properties up to
  float rounding.
* A Rust Result is modelled as Except String; a call to expect that
  fails is modelled as an explicit panicked outcome carrying the
  expect message.
-/

namespace ArexxTap

/-! Protocol codec: byte helpers (src/arexx.rs lines 41-52, 160-167). -/

/-- Little-endian byte decomposition of a u32, as u32::to_le_bytes. -/
def toLeBytes4 (n : ℕ) : List ℕ :=
  [n % 256, n / 256 % 256, n / 65536 % 256, n / 16777216 % 256]

/-- Reassemble a u16 from little-endian bytes, as u16::from_le_bytes. -/
def fromLeBytes2 (b0 b1 : ℕ) : ℕ := b0 + 256 * b1

/-- Reassemble a u16 from big-endian bytes, as u16::from_be_bytes. -/
def fromBeBytes2 (b0 b1 : ℕ) : ℕ := 256 * b0 + b1

/-- Reassemble a u32 from little-endian bytes, as u32::from_le_bytes. -/
def fromLeBytes4 (b0 b1 b2 b3 : ℕ) : ℕ :=
  b0 + 256 * b1 + 65536 * b2 + 16777216 * b3

/-- Whole seconds of a chrono Duration (num_seconds): truncation toward
zero of a rational number of seconds. -/
def truncSec (q : ℚ) : ℤ := if 0 ≤ q then ⌊q⌋ else -⌊-q⌋

/-- Embeds create_arexx_date_bytes (src/arexx.rs lines 41-46): the whole
seconds since the 2000-01-01T00:00:00Z epoch, cast with the wrapping
Rust as-u32 conversion, serialised little-endian.  The Rust function
returns Result but its body always returns Ok. -/
def create_arexx_date_bytes (dt : ℚ) : Except String (List ℕ) :=
  Except.ok (toLeBytes4 ((truncSec dt).emod 4294967296).toNat)

/-- Embeds parse_arexx_date_bytes (src/arexx.rs lines 48-52): epoch plus
the little-endian u32 seconds, in the seconds-since-epoch representation
of DateTime values.  The Rust function returns Result but its body
always returns Ok. -/
def parse_arexx_date_bytes (b : List ℕ) : Except String ℚ :=
  Except.ok ((fromLeBytes4 (b.getD 0 0) (b.getD 1 0) (b.getD 2 0) (b.getD 3 0) : ℕ) : ℚ)

/-- Embeds the ArexxResult enum (src/arexx.rs lines 54-58) with the
TemperatureReading payload inlined; NotAvailable is the detached
outcome. -/
inductive ArexxResult where
  | Temperature (timestamp : ℚ) (sensor : ℕ) (value : ℚ)
  | Other
  | NotAvailable
deriving DecidableEq

/-- Sensor id of a response frame: little-endian u16 at bytes 2-3
(src/arexx.rs lines 160-161). -/
def sensorIdOf (buf : List ℕ) : ℕ := fromLeBytes2 (buf.getD 2 0) (buf.getD 3 0)

/-- Raw value of a response frame: big-endian u16 at bytes 4-5
(src/arexx.rs lines 163-164). -/
def rawValueOf (buf : List ℕ) : ℕ := fromBeBytes2 (buf.getD 4 0) (buf.getD 5 0)

/-- Timestamp field of a response frame: the four bytes 6-9
(src/arexx.rs line 166). -/
def tsBytesOf (buf : List ℕ) : List ℕ :=
  [buf.getD 6 0, buf.getD 7 0, buf.getD 8 0, buf.getD 9 0]

/-- Embeds the decode-and-classify logic of Arexx::read_record after a
successful bulk read (src/arexx.rs lines 160-192), with the calibration
lookup table given as a map from sensor id to resolved scale.  The
error branch for an unparsable timestamp is kept as in the source. -/
def decode_frame (table : ℕ → Option ℚ) (buf : List ℕ) : Except String ArexxResult :=
  let sensor_id := sensorIdOf buf
  let value := rawValueOf buf
  match parse_arexx_date_bytes (tsBytesOf buf) with
  | Except.ok ts =>
      if sensor_id ≠ 0xFFFF then
        match table sensor_id with
        | some scale =>
            Except.ok (ArexxResult.Temperature ts sensor_id ((value : ℚ) * scale))
        | none => Except.ok ArexxResult.Other
      else Except.ok ArexxResult.Other
  | Except.error _ => Except.error ("error parsing timestamp")

/-! Concrete codec inputs used by witnesses and counterexamples. -/

/-- Calibration table of the specification scenario: sensor 5 with scale
1/100, every other sensor unknown. -/
def exTable : ℕ → Option ℚ := fun s => if s = 5 then some (1 / 100) else none

/-- Response frame of the specification scenario: sensor id 5
(little-endian 05 00), raw value 400 (big-endian 01 90), timestamp
10 seconds after the epoch. -/
def exFrame : List ℕ := [0, 0, 5, 0, 1, 144, 10, 0, 0, 0] ++ List.replicate 54 0

/-- Calibration table that lists the sentinel id 0xFFFF as a key. -/
def sentinelTable : ℕ → Option ℚ := fun s => if s = 0xFFFF then some 1 else none

/-- Response frame carrying the sentinel sensor id 0xFFFF. -/
def sentinelFrame : List ℕ := [0, 0, 255, 255] ++ List.replicate 60 0

/-- An all-zero 64-byte frame. -/
def zeroFrame : List ℕ := List.replicate 64 0

/-! Device session state machine (src/usb.rs). -/

/-- Embeds the Endpoints struct (src/usb.rs lines 11-18). -/
structure Endpoints where
  config : ℕ
  iface : ℕ
  setting : ℕ
  read_addr : ℕ
  write_addr : ℕ
deriving DecidableEq

/-- Embeds UsbInner (src/usb.rs lines 20-24).  The opaque device handle
is represented by the ghost field handleGen recording which arrival
opened it, so that pairing a handle with a generation is observable. -/
structure UsbInner where
  endpoints : Endpoints
  handleGen : ℕ
deriving DecidableEq

/-- Embeds UsbDevice (src/usb.rs lines 26-31); the listener join handle
carries no session state and is omitted. -/
structure UsbDevice where
  connect_count : ℕ
  inner : Option UsbInner
deriving DecidableEq

/-- Initial session state built by UsbDevice::new (src/usb.rs
lines 34-42): generation 0, detached. -/
def usbInit : UsbDevice := { connect_count := 0, inner := none }

/-- Results of the platform calls made during one arrival: descriptor
read, device open, endpoint discovery, kernel-driver probe and detach,
and the configure/claim/alt-setting step (configure_endpoints bundles
the three Results into one). -/
structure ArrivalEnv where
  descOk : Bool
  openOk : Bool
  foundEndpoints : Option Endpoints
  kernelActive : Bool
  detachOk : Bool
  configureOk : Bool
deriving DecidableEq

/-- An arrival attempt completes iff every fallible platform call of
device_arrived succeeds. -/
def ArrivalEnv.succeeds (env : ArrivalEnv) : Bool :=
  env.descOk && env.openOk && env.foundEndpoints.isSome &&
    (!env.kernelActive || env.detachOk) && env.configureOk

/-- Outcome of one hotplug callback invocation: either it runs to
completion, or one of its expect calls panics with the given message. -/
inductive ArrivalOutcome where
  | completed
  | panicked (msg : String)
deriving DecidableEq

/-- Embeds UsbHotplugHandler::device_arrived (src/usb.rs lines 95-122).
Each expect call is modelled as a panicked outcome carrying its message,
in source order; only after all of them succeed is the session mutated:
the generation counter is incremented and inner replaced. -/
def device_arrived (env : ArrivalEnv) (s : UsbDevice) : ArrivalOutcome × UsbDevice :=
  if !env.descOk then (ArrivalOutcome.panicked ("cannot read device descriptor"), s)
  else if !env.openOk then (ArrivalOutcome.panicked ("cannot open device"), s)
  else
    match env.foundEndpoints with
    | none => (ArrivalOutcome.panicked ("could not find r/w endpoints for bulk transfer type"), s)
    | some eps =>
        if env.kernelActive && !env.detachOk then
          (ArrivalOutcome.panicked ("cannot detach kernel driver"), s)
        else if !env.configureOk then
          (ArrivalOutcome.panicked ("cannot configure endpoints"), s)
        else
          (ArrivalOutcome.completed,
            { connect_count := s.connect_count + 1,
              inner := some { endpoints := eps, handleGen := s.connect_count + 1 } })

/-- Embeds UsbHotplugHandler::device_left (src/usb.rs lines 124-140).
The cleanup block releases the interface (and possibly re-attaches the
kernel driver) only when a handle is present; cleanupOk is the combined
success of those expect calls.  Only after cleanup does the second lock
acquisition set inner to None; the generation counter is untouched. -/
def device_left (cleanupOk : Bool) (s : UsbDevice) : ArrivalOutcome × UsbDevice :=
  if s.inner.isSome && !cleanupOk then
    (ArrivalOutcome.panicked ("cannot release interface"), s)
  else (ArrivalOutcome.completed, { s with inner := none })

/-- A hotplug event together with the platform-call results that drive
its transition. -/
inductive HotplugEvent where
  | arrived (env : ArrivalEnv)
  | left (cleanupOk : Bool)
deriving DecidableEq

/-- State reached after one hotplug event. -/
def applyEvent (s : UsbDevice) : HotplugEvent → UsbDevice
  | HotplugEvent.arrived env => (device_arrived env s).2
  | HotplugEvent.left ok => (device_left ok s).2

/-- State reached after a sequence of hotplug events. -/
def runEvents (s : UsbDevice) (evs : List HotplugEvent) : UsbDevice :=
  evs.foldl applyEvent s

/-- Generations assigned by the completed arrivals of an event
sequence, in order. -/
def arrivalGens : UsbDevice → List HotplugEvent → List ℕ
  | _, [] => []
  | s, HotplugEvent.arrived env :: evs =>
      match device_arrived env s with
      | (ArrivalOutcome.completed, s2) => s2.connect_count :: arrivalGens s2 evs
      | (ArrivalOutcome.panicked _, s2) => arrivalGens s2 evs
  | s, HotplugEvent.left ok :: evs => arrivalGens (device_left ok s).2 evs

/-- Consistency of a session state: an attached handle was opened by
the arrival whose generation is the current counter value. -/
def usbConsistent (s : UsbDevice) : Prop :=
  ∀ i : UsbInner, s.inner = some i → i.handleGen = s.connect_count

/-! Polling engine (src/arexx.rs lines 108-202). -/

/-- Inputs to one poll_once call: the current wall-clock time, the
success of the handshake bulk write, the success of the trigger bulk
write, and the bytes produced by the bulk read (or none on a read
error). -/
structure PollInput where
  now : ℚ
  hsOk : Bool
  trigOk : Bool
  readData : Option (List ℕ)
deriving DecidableEq

/-- A bulk-write attempt observed on the wire, tagged with the
generation of the handle it was issued on; a handshake entry records
the session start time placed in its date bytes. -/
inductive Sent where
  | handshake (startTime : ℚ) (gen : ℕ)
  | trigger (gen : ℕ)
deriving DecidableEq

/-- Generation of the handle a wire entry was issued on. -/
def sentGen : Sent → ℕ
  | Sent.handshake _ g => g
  | Sent.trigger g => g

/-- Whether a wire entry is a handshake frame. -/
def isHandshake : Sent → Bool
  | Sent.handshake _ _ => true
  | Sent.trigger _ => false

/-- The polling-engine private state of Arexx (src/arexx.rs
lines 33-39): the one-shot start-time cell and the last initialized
generation. -/
structure ArexxState where
  start_time : Option ℚ
  connect_initialized : ℕ
deriving DecidableEq

/-- Embeds the trigger write and bulk read of Arexx::read_record
(src/arexx.rs lines 142-198), for a handle of generation gen: the
trigger frame write is attempted first; on success the response is read
and decoded by decode_frame. -/
def trigger_and_read (table : ℕ → Option ℚ) (gen : ℕ) (inp : PollInput) :
    Except String ArexxResult × List Sent :=
  if inp.trigOk then
    match inp.readData with
    | some buf => (decode_frame table buf, [Sent.trigger gen])
    | none => (Except.error ("failed to read from arexx endpoint"), [Sent.trigger gen])
  else (Except.error ("failed to trigger arexx"), [Sent.trigger gen])

/-- Embeds Arexx::read_record (src/arexx.rs lines 131-202) faithfully to
its two separate lock acquisitions: connect_count is read from the
session state usb1 seen at the first lock (line 132), inner from the
state usb2 seen at the second lock (line 133), which is then held for
the rest of the body.  When the stored initialized generation differs
from the connect_count snapshot, init_arexx (lines 108-129) runs first:
it takes the start-time cell or the current time, clears the cell, and
writes the handshake frame; only if that write succeeds is the
generation recorded as initialized and the trigger/read cycle run. -/
def read_record_two_locks (table : ℕ → Option ℚ) (st : ArexxState)
    (usb1 usb2 : UsbDevice) (inp : PollInput) :
    Except String ArexxResult × ArexxState × List Sent :=
  let connect_count := usb1.connect_count
  match usb2.inner with
  | none => (Except.ok ArexxResult.NotAvailable, st, [])
  | some inner =>
      if st.connect_initialized ≠ connect_count then
        let t := st.start_time.getD inp.now
        if inp.hsOk then
          let st2 : ArexxState := { start_time := none, connect_initialized := connect_count }
          let tr := trigger_and_read table inner.handleGen inp
          (tr.1, st2, Sent.handshake t inner.handleGen :: tr.2)
        else
          (Except.error ("handshake write failed"),
            { start_time := none, connect_initialized := st.connect_initialized },
            [Sent.handshake t inner.handleGen])
      else
        let tr := trigger_and_read table inner.handleGen inp
        (tr.1, st, tr.2)

/-- Arexx::read_record in the absence of interleaved hotplug
transitions: both lock acquisitions observe the same session state. -/
def read_record (table : ℕ → Option ℚ) (st : ArexxState) (usb : UsbDevice) (inp : PollInput) :
    Except String ArexxResult × ArexxState × List Sent :=
  read_record_two_locks table st usb usb inp

/-- Runs read_record once per input while the session state stays
fixed, threading the engine state and concatenating the wire traces. -/
def pollN (table : ℕ → Option ℚ) (usb : UsbDevice) :
    ArexxState → List PollInput → ArexxState × List Sent
  | st, [] => (st, [])
  | st, inp :: inps =>
      let r := read_record table st usb inp
      let rest := pollN table usb r.2.1 inps
      (rest.1, r.2.2 ++ rest.2)

/-! Concrete session and polling inputs used by witnesses and
counterexamples. -/

/-- Endpoint set of the single bulk interface of the device. -/
def goodEndpoints : Endpoints :=
  { config := 1, iface := 0, setting := 0, read_addr := 129, write_addr := 1 }

/-- Arrival whose platform calls all succeed. -/
def okArrival : ArrivalEnv :=
  { descOk := true, openOk := true, foundEndpoints := some goodEndpoints,
    kernelActive := false, detachOk := true, configureOk := true }

/-- Arrival whose configure/claim/alt-setting step fails. -/
def badConfigArrival : ArrivalEnv :=
  { descOk := true, openOk := true, foundEndpoints := some goodEndpoints,
    kernelActive := false, detachOk := true, configureOk := false }

/-- Session state at generation 5, attached with the generation-5
handle. -/
def tornUsb1 : UsbDevice :=
  { connect_count := 5, inner := some { endpoints := goodEndpoints, handleGen := 5 } }

/-- Session state after a departure and a successful arrival starting
from tornUsb1. -/
def tornUsb2 : UsbDevice := (device_arrived okArrival (device_left true tornUsb1).2).2

/-- Engine state that has already initialized generation 5. -/
def tornState : ArexxState := { start_time := none, connect_initialized := 5 }

/-- Poll input with all transport operations succeeding and an all-zero
response frame. -/
def tornInput : PollInput :=
  { now := 0, hsOk := true, trigOk := true, readData := some zeroFrame }

/-! Codec lemmas. -/

/-- Reassembling the little-endian decomposition of a u32 recovers it. -/
theorem fromLe_toLe (n : ℕ) (h : n < 4294967296) :
    fromLeBytes4 (n % 256) (n / 256 % 256) (n / 65536 % 256) (n / 16777216 % 256) = n := by
  unfold fromLeBytes4
  omega

/-- Parsing the serialised date bytes of a u32 recovers its value. -/
theorem parse_toLeBytes4 (n : ℕ) (h : n < 4294967296) :
    parse_arexx_date_bytes (toLeBytes4 n) = Except.ok ((n : ℚ)) := by
  unfold parse_arexx_date_bytes toLeBytes4
  simp only [List.getD_cons_zero, List.getD_cons_succ]
  rw [fromLe_toLe n h]

/-- The decoder always classifies: its result is Ok on every frame. -/
theorem decode_frame_ok (table : ℕ → Option ℚ) (buf : List ℕ) :
    ∃ r, decode_frame table buf = Except.ok r := by
  unfold decode_frame parse_arexx_date_bytes
  simp only
  by_cases h : sensorIdOf buf ≠ 0xFFFF
  · rw [if_pos h]
    cases table (sensorIdOf buf) <;> exact ⟨_, rfl⟩
  · rw [if_neg h]
    exact ⟨_, rfl⟩

/-- The trigger/read cycle records exactly one trigger attempt on the
wire, whatever the transport outcomes. -/
theorem trigger_and_read_sent (table : ℕ → Option ℚ) (gen : ℕ) (inp : PollInput) :
    (trigger_and_read table gen inp).2 = [Sent.trigger gen] := by
  unfold trigger_and_read
  by_cases h : inp.trigOk = true
  · rw [if_pos h]
    cases inp.readData <;> rfl
  · rw [if_neg h]

/-- The trigger/read cycle never reports a timestamp parse error. -/
theorem trigger_and_read_no_ts_error (table : ℕ → Option ℚ) (gen : ℕ) (inp : PollInput) :
    (trigger_and_read table gen inp).1 ≠ Except.error ("error parsing timestamp") := by
  unfold trigger_and_read
  by_cases h : inp.trigOk = true
  · rw [if_pos h]
    cases hrd : inp.readData with
    | none => simp
    | some buf =>
        obtain ⟨r, hr⟩ := decode_frame_ok table buf
        simp [hr]
  · rw [if_neg h]
    simp

/-- Detached session: read_record reports NotAvailable, touches no
state, performs no bulk transfer. -/
theorem read_record_detached (table : ℕ → Option ℚ) (st : ArexxState) (usb : UsbDevice)
    (inp : PollInput) (hin : usb.inner = none) :
    read_record table st usb inp = (Except.ok ArexxResult.NotAvailable, st, []) := by
  unfold read_record read_record_two_locks
  rw [hin]

/-- Attached session in a not-yet-initialized generation, handshake
write succeeding: read_record sends the handshake built from the
start-time cell (or the current time), records the generation, then
runs the trigger/read cycle. -/
theorem read_record_fresh (table : ℕ → Option ℚ) (st : ArexxState) (usb : UsbDevice)
    (inp : PollInput) (i : UsbInner)
    (hin : usb.inner = some i) (hne : st.connect_initialized ≠ usb.connect_count)
    (hhs : inp.hsOk = true) :
    read_record table st usb inp =
      ((trigger_and_read table i.handleGen inp).1,
        { start_time := none, connect_initialized := usb.connect_count },
        [Sent.handshake (st.start_time.getD inp.now) i.handleGen, Sent.trigger i.handleGen]) := by
  unfold read_record read_record_two_locks
  rw [hin]
  simp only [if_pos hne, hhs, if_true, trigger_and_read_sent]

/-- Attached session in a not-yet-initialized generation, handshake
write failing: read_record returns the transport error, consumes the
start-time cell, leaves the initialized generation unchanged and sends
no trigger. -/
theorem read_record_fresh_fail (table : ℕ → Option ℚ) (st : ArexxState) (usb : UsbDevice)
    (inp : PollInput) (i : UsbInner)
    (hin : usb.inner = some i) (hne : st.connect_initialized ≠ usb.connect_count)
    (hhs : inp.hsOk = false) :
    read_record table st usb inp =
      (Except.error ("handshake write failed"),
        { start_time := none, connect_initialized := st.connect_initialized },
        [Sent.handshake (st.start_time.getD inp.now) i.handleGen]) := by
  unfold read_record read_record_two_locks
  rw [hin]
  simp only [if_pos hne, hhs, Bool.false_eq_true, if_false]

/-- Attached session in an already-initialized generation: read_record
sends no handshake and leaves the engine state unchanged. -/
theorem read_record_initialized (table : ℕ → Option ℚ) (st : ArexxState) (usb : UsbDevice)
    (inp : PollInput) (i : UsbInner)
    (hin : usb.inner = some i) (heq : st.connect_initialized = usb.connect_count) :
    read_record table st usb inp =
      ((trigger_and_read table i.handleGen inp).1, st, [Sent.trigger i.handleGen]) := by
  unfold read_record read_record_two_locks
  rw [hin]
  simp only [heq, ne_eq, not_true_eq_false, if_false, trigger_and_read_sent]

/-- C9: parse_arexx_date_bytes returns a defined timestamp for every
byte list, the decoder therefore never reaches its timestamp-parse-error
branch, and read_record never returns that error. -/
theorem timestamp_parse_infallible :
    (∀ b : List ℕ, ∃ q, parse_arexx_date_bytes b = Except.ok q) ∧
    (∀ (table : ℕ → Option ℚ) (buf : List ℕ), ∃ r, decode_frame table buf = Except.ok r) ∧
    (∀ (table : ℕ → Option ℚ) (st : ArexxState) (usb : UsbDevice) (inp : PollInput),
      (read_record table st usb inp).1 ≠ Except.error ("error parsing timestamp")) := by
  refine ⟨fun b => ⟨_, rfl⟩, decode_frame_ok, ?_⟩
  intro table st usb inp
  cases hin : usb.inner with
  | none => rw [read_record_detached table st usb inp hin]; simp
  | some i =>
      by_cases hne : st.connect_initialized ≠ usb.connect_count
      · by_cases hhs : inp.hsOk = true
        · rw [read_record_fresh table st usb inp i hin hne hhs]
          exact trigger_and_read_no_ts_error table i.handleGen inp
        · rw [read_record_fresh_fail table st usb inp i hin hne (by simpa using hhs)]
          simp
      · rw [read_record_initialized table st usb inp i hin (by simpa using hne)]
        exact trigger_and_read_no_ts_error table i.handleGen inp

/-- C4: a response frame whose sensor id is the sentinel 0xFFFF or is
absent from the calibration table decodes to Other: no error and no
Temperature reading carrying that id. -/
theorem unknown_or_sentinel_yields_other
    (table : ℕ → Option ℚ) (buf : List ℕ)
    (h : sensorIdOf buf = 0xFFFF ∨ table (sensorIdOf buf) = none) :
    decode_frame table buf = Except.ok ArexxResult.Other := by
  unfold decode_frame parse_arexx_date_bytes
  rcases h with h | h
  · simp [h]
  · by_cases hs : sensorIdOf buf ≠ 0xFFFF
    · simp [hs, h]
    · simp [hs]

/-- Witness for C4 at a concrete frame with sensor id 0 absent from the
scenario table. -/
theorem unknown_or_sentinel_yields_other_witness :
    decode_frame exTable zeroFrame = Except.ok ArexxResult.Other :=
  unknown_or_sentinel_yields_other exTable zeroFrame (Or.inr (by decide))

/-- C3 counterexample: when the sentinel id 0xFFFF is itself a key of
the calibration table, a frame carrying it still decodes to Other, not
to a Temperature reading — the sentinel check precedes the table
lookup, refuting the claim at s = 0xFFFF. -/
theorem sentinel_key_not_temperature :
    sentinelTable (sensorIdOf sentinelFrame) = some 1 ∧
    sensorIdOf sentinelFrame = 0xFFFF ∧
    decode_frame sentinelTable sentinelFrame = Except.ok ArexxResult.Other ∧
    ∀ ts v : ℚ, (Except.ok ArexxResult.Other : Except String ArexxResult) ≠
      Except.ok (ArexxResult.Temperature ts (sensorIdOf sentinelFrame) v) := by
  refine ⟨rfl, by decide, rfl, ?_⟩
  intro ts v h
  injection h with h2
  exact ArexxResult.noConfusion h2

/-- C3 (amended): a 64-byte response frame whose little-endian sensor
id s at bytes 2-3 differs from the sentinel 0xFFFF and is a key of the
calibration table with scale k, with big-endian raw value v at
bytes 4-5 and little-endian seconds at bytes 6-9, decodes to a
Temperature reading with sensor s, value v * k and timestamp epoch
plus those seconds. -/
theorem known_sensor_decodes_temperature
    (table : ℕ → Option ℚ) (buf : List ℕ) (s v secs : ℕ) (k : ℚ)
    (hs : s < 65536) (hv : v < 65536) (hts : secs < 4294967296)
    (hb2 : buf.getD 2 0 = s % 256) (hb3 : buf.getD 3 0 = s / 256)
    (hb4 : buf.getD 4 0 = v / 256) (hb5 : buf.getD 5 0 = v % 256)
    (hb6 : buf.getD 6 0 = secs % 256) (hb7 : buf.getD 7 0 = secs / 256 % 256)
    (hb8 : buf.getD 8 0 = secs / 65536 % 256) (hb9 : buf.getD 9 0 = secs / 16777216 % 256)
    (hsent : s ≠ 0xFFFF) (htab : table s = some k) :
    decode_frame table buf =
      Except.ok (ArexxResult.Temperature ((secs : ℚ)) s ((v : ℚ) * k)) := by
  have hsid : sensorIdOf buf = s := by
    unfold sensorIdOf fromLeBytes2
    rw [hb2, hb3]
    omega
  have hval : rawValueOf buf = v := by
    unfold rawValueOf fromBeBytes2
    rw [hb4, hb5]
    omega
  have hts4 : fromLeBytes4 (buf.getD 6 0) (buf.getD 7 0) (buf.getD 8 0) (buf.getD 9 0) = secs := by
    unfold fromLeBytes4
    rw [hb6, hb7, hb8, hb9]
    omega
  unfold decode_frame parse_arexx_date_bytes tsBytesOf
  simp only [List.getD_cons_zero, List.getD_cons_succ, hts4, hsid, hval]
  rw [if_pos hsent, htab]

/-- Witness for C3 at the specification scenario: table with sensor 5
at scale 1/100, frame with id 5, raw value 400, timestamp epoch + 10
seconds, giving the reading Temperature 10s, sensor 5, value 4. -/
theorem known_sensor_decodes_temperature_witness :
    decode_frame exTable exFrame =
      Except.ok (ArexxResult.Temperature ((10 : ℚ)) 5 ((400 : ℚ) * (1 / 100))) :=
  known_sensor_decodes_temperature exTable exFrame 5 400 10 (1 / 100)
    (by decide) (by decide) (by decide)
    (by decide) (by decide) (by decide) (by decide)
    (by decide) (by decide) (by decide) (by decide)
    (by decide) rfl

/-- C5 counterexample: the time one second before the epoch is not
rejected by create_arexx_date_bytes; the seconds value wraps to
4294967295, and decoding the bytes yields a time far after the epoch
instead of the original time. -/
theorem pre_epoch_encode_wraps :
    create_arexx_date_bytes (-1) = Except.ok [255, 255, 255, 255] ∧
    parse_arexx_date_bytes [255, 255, 255, 255] = Except.ok ((4294967295 : ℚ)) ∧
    ((4294967295 : ℚ)) ≠ ((-1 : ℚ)) := by
  have htr : truncSec (-1 : ℚ) = -1 := by
    unfold truncSec
    norm_num
  refine ⟨?_, ?_, by norm_num⟩
  · unfold create_arexx_date_bytes
    rw [htr]
    congr 1
  · unfold parse_arexx_date_bytes
    norm_num [fromLeBytes4]

/-- C5 (amended): for a time t between the epoch and epoch + 2^32
seconds, encoding the handshake date bytes and decoding them recovers
t truncated to whole seconds; for a time u strictly before the epoch
the encoding is not rejected — the seconds value silently wraps modulo
2^32. -/
theorem date_bytes_round_trip_and_wrap
    (t u : ℚ) (h0 : 0 ≤ t) (h1 : t < 4294967296) (h2 : u < 0) :
    (∃ b, create_arexx_date_bytes t = Except.ok b ∧
      parse_arexx_date_bytes b = Except.ok (((⌊t⌋ : ℤ) : ℚ))) ∧
    (∃ b, create_arexx_date_bytes u = Except.ok b ∧
      parse_arexx_date_bytes b = Except.ok ((((truncSec u).emod 4294967296 : ℤ) : ℚ))) := by
  constructor
  · have htr : truncSec t = ⌊t⌋ := by unfold truncSec; rw [if_pos h0]
    have hfl0 : (0 : ℤ) ≤ ⌊t⌋ := Int.floor_nonneg.mpr h0
    have hflt : ⌊t⌋ < 4294967296 := by
      have := Int.floor_lt.mpr (show t < ((4294967296 : ℤ) : ℚ) by push_cast; exact h1)
      exact this
    have hmod : (⌊t⌋).emod 4294967296 = ⌊t⌋ := Int.emod_eq_of_lt hfl0 hflt
    have hnat : ((⌊t⌋).toNat : ℤ) = ⌊t⌋ := Int.toNat_of_nonneg hfl0
    refine ⟨_, rfl, ?_⟩
    rw [htr, hmod]
    rw [parse_toLeBytes4 (⌊t⌋).toNat (by omega)]
    congr 1
    exact_mod_cast hnat
  · have hm0 : (0 : ℤ) ≤ (truncSec u).emod 4294967296 :=
      Int.emod_nonneg _ (by norm_num)
    have hmlt : (truncSec u).emod 4294967296 < 4294967296 :=
      Int.emod_lt_of_pos _ (by norm_num)
    have hnat : (((truncSec u).emod 4294967296).toNat : ℤ) = (truncSec u).emod 4294967296 :=
      Int.toNat_of_nonneg hm0
    refine ⟨_, rfl, ?_⟩
    rw [parse_toLeBytes4 ((truncSec u).emod 4294967296).toNat (by omega)]
    congr 1
    exact_mod_cast hnat

/-- Witness for C5 at t = 21/2 (truncating to 10 whole seconds) and
u = -1 (before the epoch, wrapping). -/
theorem date_bytes_round_trip_and_wrap_witness :
    (∃ b, create_arexx_date_bytes (21 / 2) = Except.ok b ∧
      parse_arexx_date_bytes b = Except.ok (((⌊(21 / 2 : ℚ)⌋ : ℤ) : ℚ))) ∧
    (∃ b, create_arexx_date_bytes (-1) = Except.ok b ∧
      parse_arexx_date_bytes b = Except.ok ((((truncSec (-1)).emod 4294967296 : ℤ) : ℚ))) :=
  date_bytes_round_trip_and_wrap (21 / 2) (-1) (by norm_num) (by norm_num) (by norm_num)

/-! Session state machine lemmas. -/

/-- An arrival whose platform calls all succeed increments the
generation and installs the handle opened by that arrival. -/
theorem device_arrived_succeeds (env : ArrivalEnv) (s : UsbDevice) (h : env.succeeds = true) :
    ∃ eps, env.foundEndpoints = some eps ∧
      device_arrived env s =
        (ArrivalOutcome.completed,
          { connect_count := s.connect_count + 1,
            inner := some { endpoints := eps, handleGen := s.connect_count + 1 } }) := by
  cases hfe : env.foundEndpoints with
  | none =>
      exfalso
      unfold ArrivalEnv.succeeds at h
      rw [hfe] at h
      simp at h
  | some eps =>
      refine ⟨eps, rfl, ?_⟩
      unfold ArrivalEnv.succeeds at h
      rw [hfe] at h
      unfold device_arrived
      rw [hfe]
      cases hd : env.descOk <;> cases ho : env.openOk <;> cases hk : env.kernelActive <;>
        cases hdo : env.detachOk <;> cases hc : env.configureOk <;> simp_all

/-- An arrival with any failing platform call panics at the failing
expect and leaves the session state untouched. -/
theorem device_arrived_fails (env : ArrivalEnv) (s : UsbDevice) (h : env.succeeds = false) :
    ∃ msg, device_arrived env s = (ArrivalOutcome.panicked msg, s) := by
  unfold ArrivalEnv.succeeds at h
  unfold device_arrived
  cases hfe : env.foundEndpoints <;>
    cases hd : env.descOk <;> cases ho : env.openOk <;> cases hk : env.kernelActive <;>
    cases hdo : env.detachOk <;> cases hc : env.configureOk <;>
    simp_all

/-- A departure never changes the generation counter. -/
theorem device_left_count (ok : Bool) (s : UsbDevice) :
    ((device_left ok s).2).connect_count = s.connect_count := by
  unfold device_left
  split <;> rfl

/-- A departure whose cleanup succeeds detaches the session. -/
theorem device_left_true (s : UsbDevice) :
    device_left true s = (ArrivalOutcome.completed, { s with inner := none }) := by
  unfold device_left
  simp

/-- A departure from a detached session leaves the state unchanged. -/
theorem device_left_detached (ok : Bool) (s : UsbDevice) (hs : s.inner = none) :
    (device_left ok s).2 = s := by
  unfold device_left
  rw [hs]
  cases s
  simp_all

/-- One-step unfolding of runEvents. -/
theorem runEvents_cons (s : UsbDevice) (e : HotplugEvent) (evs : List HotplugEvent) :
    runEvents s (e :: evs) = runEvents (applyEvent s e) evs := rfl

/-- Splitting a run of events at an append. -/
theorem runEvents_append (s : UsbDevice) (evs1 evs2 : List HotplugEvent) :
    runEvents s (evs1 ++ evs2) = runEvents (runEvents s evs1) evs2 :=
  List.foldl_append ..

/-- The generations assigned by completed arrivals form a strictly
increasing list, all above the starting generation. -/
theorem arrivalGens_sorted_above (evs : List HotplugEvent) (s : UsbDevice) :
    List.Sorted (· < ·) (arrivalGens s evs) ∧
    ∀ g ∈ arrivalGens s evs, s.connect_count < g := by
  induction evs generalizing s with
  | nil => simp [arrivalGens]
  | cons e evs ih =>
      cases e with
      | arrived env =>
          cases hsu : env.succeeds with
          | false =>
              obtain ⟨msg, he⟩ := device_arrived_fails env s hsu
              have heq : arrivalGens s (HotplugEvent.arrived env :: evs) = arrivalGens s evs := by
                simp only [arrivalGens]
                rw [he]
              rw [heq]
              exact ih s
          | true =>
              obtain ⟨eps, hfe, he⟩ := device_arrived_succeeds env s hsu
              have heq : arrivalGens s (HotplugEvent.arrived env :: evs) =
                  (s.connect_count + 1) ::
                    arrivalGens
                      { connect_count := s.connect_count + 1,
                        inner := some { endpoints := eps, handleGen := s.connect_count + 1 } }
                      evs := by
                simp only [arrivalGens]
                rw [he]
              rw [heq]
              obtain ⟨ihs, ihb⟩ := ih
                { connect_count := s.connect_count + 1,
                  inner := some { endpoints := eps, handleGen := s.connect_count + 1 } }
              constructor
              · exact List.sorted_cons.mpr ⟨fun b hb => ihb b hb, ihs⟩
              · intro g hg
                rcases List.mem_cons.mp hg with hg | hg
                · omega
                · have := ihb g hg
                  simp at this
                  omega
      | left ok =>
          have heq : arrivalGens s (HotplugEvent.left ok :: evs) =
              arrivalGens (device_left ok s).2 evs := by
            simp only [arrivalGens]
          rw [heq]
          obtain ⟨ihs, ihb⟩ := ih (device_left ok s).2
          refine ⟨ihs, fun g hg => ?_⟩
          have := ihb g hg
          rw [device_left_count ok s] at this
          exact this

/-- Once detached, a session stays detached and keeps its generation
across departures and failed arrivals. -/
theorem detached_preserved (mid : List HotplugEvent)
    (hmid : ∀ env, HotplugEvent.arrived env ∈ mid → env.succeeds = false) :
    ∀ s : UsbDevice, s.inner = none →
      (runEvents s mid).inner = none ∧ (runEvents s mid).connect_count = s.connect_count := by
  induction mid with
  | nil => exact fun s hs => ⟨hs, rfl⟩
  | cons e mid ih =>
      intro s hs
      cases e with
      | arrived env =>
          have hf := hmid env (List.mem_cons_self _ _)
          obtain ⟨msg, he⟩ := device_arrived_fails env s hf
          rw [runEvents_cons]
          have happ : applyEvent s (HotplugEvent.arrived env) = s := by
            simp only [applyEvent]
            rw [he]
          rw [happ]
          exact ih (fun env2 h2 => hmid env2 (List.mem_cons_of_mem _ h2)) s hs
      | left ok =>
          rw [runEvents_cons]
          have happ : applyEvent s (HotplugEvent.left ok) = s := by
            simp only [applyEvent]
            exact device_left_detached ok s hs
          rw [happ]
          exact ih (fun env2 h2 => hmid env2 (List.mem_cons_of_mem _ h2)) s hs

/-- C2 counterexample: an arrival whose configure/claim/alt-setting
step fails makes the hotplug callback panic at its expect call instead
of logging the failure and returning normally, so the listener does not
simply keep running; the session state itself is unchanged. -/
theorem arrival_failure_panics_counterexample :
    device_arrived badConfigArrival usbInit =
      (ArrivalOutcome.panicked ("cannot configure endpoints"), usbInit) ∧
    ∀ msg, ArrivalOutcome.panicked msg ≠ ArrivalOutcome.completed :=
  ⟨rfl, fun _ h => ArrivalOutcome.noConfusion h⟩

/-- C2 (amended): if endpoint discovery or any of the setup steps of an
arrival fails, the callback panics via the failing expect call (rather
than logging and returning), and the session state is left exactly as
it was: inner — in particular a Detached session stays Detached — and
the generation counter are unchanged, because the mutation happens only
after every step has succeeded. -/
theorem arrival_failure_rejected (env : ArrivalEnv) (s : UsbDevice)
    (h : env.succeeds = false) :
    ∃ msg, device_arrived env s = (ArrivalOutcome.panicked msg, s) :=
  device_arrived_fails env s h

/-- Witness for C2 at the failing-configure arrival from the initial
detached state. -/
theorem arrival_failure_rejected_witness :
    ∃ msg, device_arrived badConfigArrival usbInit = (ArrivalOutcome.panicked msg, usbInit) :=
  arrival_failure_rejected badConfigArrival usbInit (by decide)

/-- C7: over any event sequence from the initial state the generations
assigned by completed arrivals strictly increase (hence are never
reused); after any departure, while no subsequent arrival completes,
the session stays Detached and its generation counter keeps the value
it had before the departure. -/
theorem generation_monotonicity (evs pre mid : List HotplugEvent)
    (hmid : ∀ env, HotplugEvent.arrived env ∈ mid → env.succeeds = false) :
    List.Sorted (· < ·) (arrivalGens usbInit evs) ∧
    (runEvents usbInit (pre ++ HotplugEvent.left true :: mid)).inner = none ∧
    (runEvents usbInit (pre ++ HotplugEvent.left true :: mid)).connect_count =
      (runEvents usbInit pre).connect_count := by
  refine ⟨(arrivalGens_sorted_above evs usbInit).1, ?_⟩
  rw [runEvents_append, runEvents_cons]
  have happ : applyEvent (runEvents usbInit pre) (HotplugEvent.left true) =
      { runEvents usbInit pre with inner := none } := by
    simp only [applyEvent]
    rw [device_left_true]
  rw [happ]
  have hd := detached_preserved mid hmid { runEvents usbInit pre with inner := none } rfl
  exact ⟨hd.1, hd.2⟩

/-- Witness for C7: two completed arrivals separated by a departure
give the strictly increasing generations 1, 2; after the departure the
session is Detached with its generation preserved. -/
theorem generation_monotonicity_witness :
    List.Sorted (· < ·) (arrivalGens usbInit
      [HotplugEvent.arrived okArrival, HotplugEvent.left true,
        HotplugEvent.arrived okArrival]) ∧
    (runEvents usbInit ([HotplugEvent.arrived okArrival] ++
      HotplugEvent.left true :: [])).inner = none ∧
    (runEvents usbInit ([HotplugEvent.arrived okArrival] ++
      HotplugEvent.left true :: [])).connect_count =
      (runEvents usbInit [HotplugEvent.arrived okArrival]).connect_count :=
  generation_monotonicity
    [HotplugEvent.arrived okArrival, HotplugEvent.left true, HotplugEvent.arrived okArrival]
    [HotplugEvent.arrived okArrival] []
    (fun env h => absurd h (List.not_mem_nil _))

/-! Polling engine lemmas. -/

/-- While the generation stays initialized, every poll sends exactly
one trigger and leaves the engine state unchanged. -/
theorem pollN_initialized (table : ℕ → Option ℚ) (usb : UsbDevice) (i : UsbInner)
    (hin : usb.inner = some i) (st : ArexxState)
    (heq : st.connect_initialized = usb.connect_count) (inps : List PollInput) :
    pollN table usb st inps = (st, List.replicate inps.length (Sent.trigger i.handleGen)) := by
  induction inps with
  | nil => rfl
  | cons inp inps ih =>
      simp only [pollN]
      rw [read_record_initialized table st usb inp i hin heq]
      simp only
      rw [ih]
      simp [List.replicate]

/-- A poll sequence over a fixed attached session in a
not-yet-initialized generation, with all handshake writes succeeding:
the first call sends the handshake built from the start-time cell (or
the current time of that call) followed by its trigger, every further
call sends exactly one trigger, and afterwards the cell is empty and
the generation recorded. -/
theorem pollN_fresh (table : ℕ → Option ℚ) (usb : UsbDevice) (i : UsbInner)
    (hin : usb.inner = some i) (st : ArexxState)
    (hne : st.connect_initialized ≠ usb.connect_count)
    (inp0 : PollInput) (inps : List PollInput) (hhs : inp0.hsOk = true) :
    pollN table usb st (inp0 :: inps) =
      ({ start_time := none, connect_initialized := usb.connect_count },
        Sent.handshake (st.start_time.getD inp0.now) i.handleGen ::
          Sent.trigger i.handleGen ::
            List.replicate inps.length (Sent.trigger i.handleGen)) := by
  simp only [pollN]
  rw [read_record_fresh table st usb inp0 i hin hne hhs]
  simp only
  rw [pollN_initialized table usb i hin
    { start_time := none, connect_initialized := usb.connect_count } rfl inps]
  rfl

/-- C1: while the session stays in one not-yet-initialized generation,
any number of consecutive read_record calls with succeeding handshake
writes sends exactly one handshake frame, before the first trigger of
the generation; after a departure and a completed arrival to the next
generation, the next call sends exactly one further handshake before
its trigger. -/
theorem handshake_once_per_generation
    (table : ℕ → Option ℚ) (usb : UsbDevice) (i : UsbInner) (st : ArexxState)
    (inp0 : PollInput) (inps : List PollInput)
    (hin : usb.inner = some i)
    (hfresh : st.connect_initialized ≠ usb.connect_count)
    (hok : ∀ inp ∈ inp0 :: inps, inp.hsOk = true) :
    (∃ t rest, (pollN table usb st (inp0 :: inps)).2 =
        Sent.handshake t i.handleGen :: rest ∧
      ∀ x ∈ rest, x = Sent.trigger i.handleGen) ∧
    (∀ env : ArrivalEnv, env.succeeds = true →
      ∀ inp2 : PollInput, inp2.hsOk = true →
        ∃ t2, (read_record table (pollN table usb st (inp0 :: inps)).1
            (device_arrived env (device_left true usb).2).2 inp2).2.2 =
          [Sent.handshake t2 (usb.connect_count + 1),
            Sent.trigger (usb.connect_count + 1)]) := by
  have hhs0 : inp0.hsOk = true := hok inp0 (List.mem_cons_self _ _)
  rw [pollN_fresh table usb i hin st hfresh inp0 inps hhs0]
  constructor
  · refine ⟨st.start_time.getD inp0.now, _, rfl, ?_⟩
    intro x hx
    rcases List.mem_cons.mp hx with hx | hx
    · exact hx
    · exact List.eq_of_mem_replicate hx
  · intro env hsu inp2 hhs2
    have hleft : (device_left true usb).2 = { usb with inner := none } := by
      rw [device_left_true]
    obtain ⟨eps, hfe, he⟩ := device_arrived_succeeds env { usb with inner := none } hsu
    rw [hleft, he]
    simp only
    have husb2 :
        ({ connect_count := usb.connect_count + 1,
           inner := some { endpoints := eps, handleGen := usb.connect_count + 1 } } :
          UsbDevice).inner =
        some { endpoints := eps, handleGen := usb.connect_count + 1 } := rfl
    rw [read_record_fresh table
      { start_time := none, connect_initialized := usb.connect_count }
      { connect_count := usb.connect_count + 1,
        inner := some { endpoints := eps, handleGen := usb.connect_count + 1 } }
      inp2 { endpoints := eps, handleGen := usb.connect_count + 1 }
      husb2 (by simp) hhs2]
    exact ⟨inp2.now, rfl⟩

/-- Witness for C1: two polls in generation 1 followed by a departure,
an arrival to generation 2 and one further poll. -/
theorem handshake_once_per_generation_witness :
    (∃ t rest, (pollN exTable (runEvents usbInit [HotplugEvent.arrived okArrival])
        { start_time := none, connect_initialized := 0 } [tornInput, tornInput]).2 =
        Sent.handshake t 1 :: rest ∧ ∀ x ∈ rest, x = Sent.trigger 1) ∧
    (∀ env : ArrivalEnv, env.succeeds = true →
      ∀ inp2 : PollInput, inp2.hsOk = true →
        ∃ t2, (read_record exTable
            (pollN exTable (runEvents usbInit [HotplugEvent.arrived okArrival])
              { start_time := none, connect_initialized := 0 } [tornInput, tornInput]).1
            (device_arrived env
              (device_left true (runEvents usbInit [HotplugEvent.arrived okArrival])).2).2
            inp2).2.2 =
          [Sent.handshake t2
            ((runEvents usbInit [HotplugEvent.arrived okArrival]).connect_count + 1),
            Sent.trigger
              ((runEvents usbInit [HotplugEvent.arrived okArrival]).connect_count + 1)]) :=
  handshake_once_per_generation exTable
    (runEvents usbInit [HotplugEvent.arrived okArrival])
    { endpoints := goodEndpoints, handleGen := 1 }
    { start_time := none, connect_initialized := 0 }
    tornInput [tornInput] (by decide) (by decide) (by decide)

/-- C6: when the engine starts with a caller-supplied start time, the
first handshake of the process carries exactly that time and empties
the one-shot cell; after a departure and a completed arrival, the next
handshake carries the current time of its own call instead. -/
theorem start_time_used_once
    (table : ℕ → Option ℚ) (usb : UsbDevice) (i : UsbInner) (st : ArexxState) (t0 : ℚ)
    (inp0 : PollInput) (inps : List PollInput)
    (hin : usb.inner = some i)
    (hstart : st.start_time = some t0)
    (hfresh : st.connect_initialized ≠ usb.connect_count)
    (hok : ∀ inp ∈ inp0 :: inps, inp.hsOk = true) :
    (∃ rest, (pollN table usb st (inp0 :: inps)).2 =
        Sent.handshake t0 i.handleGen :: rest ∧
      ∀ x ∈ rest, isHandshake x = false) ∧
    (pollN table usb st (inp0 :: inps)).1.start_time = none ∧
    (∀ env : ArrivalEnv, env.succeeds = true →
      ∀ inp2 : PollInput, inp2.hsOk = true →
        ∃ rest2, (read_record table (pollN table usb st (inp0 :: inps)).1
            (device_arrived env (device_left true usb).2).2 inp2).2.2 =
          Sent.handshake inp2.now (usb.connect_count + 1) :: rest2) := by
  have hhs0 : inp0.hsOk = true := hok inp0 (List.mem_cons_self _ _)
  rw [pollN_fresh table usb i hin st hfresh inp0 inps hhs0]
  refine ⟨?_, rfl, ?_⟩
  · rw [hstart]
    refine ⟨_, rfl, ?_⟩
    intro x hx
    rcases List.mem_cons.mp hx with hx | hx
    · rw [hx]; rfl
    · rw [List.eq_of_mem_replicate hx]; rfl
  · intro env hsu inp2 hhs2
    have hleft : (device_left true usb).2 = { usb with inner := none } := by
      rw [device_left_true]
    obtain ⟨eps, hfe, he⟩ := device_arrived_succeeds env { usb with inner := none } hsu
    rw [hleft, he]
    simp only
    rw [read_record_fresh table
      { start_time := none, connect_initialized := usb.connect_count }
      { connect_count := usb.connect_count + 1,
        inner := some { endpoints := eps, handleGen := usb.connect_count + 1 } }
      inp2 { endpoints := eps, handleGen := usb.connect_count + 1 }
      rfl (by simp) hhs2]
    exact ⟨_, rfl⟩

/-- Witness for C6 with caller-supplied start time 100. -/
theorem start_time_used_once_witness :
    (∃ rest, (pollN exTable (runEvents usbInit [HotplugEvent.arrived okArrival])
        { start_time := some 100, connect_initialized := 0 } [tornInput]).2 =
        Sent.handshake 100 1 :: rest ∧ ∀ x ∈ rest, isHandshake x = false) ∧
    (pollN exTable (runEvents usbInit [HotplugEvent.arrived okArrival])
      { start_time := some 100, connect_initialized := 0 } [tornInput]).1.start_time = none ∧
    (∀ env : ArrivalEnv, env.succeeds = true →
      ∀ inp2 : PollInput, inp2.hsOk = true →
        ∃ rest2, (read_record exTable
            (pollN exTable (runEvents usbInit [HotplugEvent.arrived okArrival])
              { start_time := some 100, connect_initialized := 0 } [tornInput]).1
            (device_arrived env
              (device_left true (runEvents usbInit [HotplugEvent.arrived okArrival])).2).2
            inp2).2.2 =
          Sent.handshake inp2.now
            ((runEvents usbInit [HotplugEvent.arrived okArrival]).connect_count + 1) :: rest2) :=
  start_time_used_once exTable
    (runEvents usbInit [HotplugEvent.arrived okArrival])
    { endpoints := goodEndpoints, handleGen := 1 }
    { start_time := some 100, connect_initialized := 0 } 100
    tornInput [] (by decide) rfl (by decide) (by decide)

/-- C10: when the handshake write inside read_record fails, the call
returns the transport error without sending any trigger and without
recording the generation as initialized, but the one-shot start-time
cell has already been consumed, so the re-attempted handshake of the
next call carries the current time of that call. -/
theorem handshake_failure_not_recorded
    (table : ℕ → Option ℚ) (usb : UsbDevice) (i : UsbInner) (st : ArexxState)
    (inp : PollInput)
    (hin : usb.inner = some i)
    (hfresh : st.connect_initialized ≠ usb.connect_count)
    (hfail : inp.hsOk = false) :
    (read_record table st usb inp).1 = Except.error ("handshake write failed") ∧
    (read_record table st usb inp).2.2 =
      [Sent.handshake (st.start_time.getD inp.now) i.handleGen] ∧
    (read_record table st usb inp).2.1.connect_initialized = st.connect_initialized ∧
    (read_record table st usb inp).2.1.start_time = none ∧
    (∀ inp2 : PollInput, inp2.hsOk = true →
      (read_record table (read_record table st usb inp).2.1 usb inp2).2.2 =
        [Sent.handshake inp2.now i.handleGen, Sent.trigger i.handleGen]) := by
  rw [read_record_fresh_fail table st usb inp i hin hfresh hfail]
  refine ⟨rfl, rfl, rfl, rfl, ?_⟩
  intro inp2 hhs2
  rw [read_record_fresh table
    { start_time := none, connect_initialized := st.connect_initialized }
    usb inp2 i hin hfresh hhs2]
  rfl

/-- Witness for C10: a failing handshake write in generation 1 followed
by a successful call. -/
theorem handshake_failure_not_recorded_witness :
    (read_record exTable { start_time := some 100, connect_initialized := 0 }
        (runEvents usbInit [HotplugEvent.arrived okArrival])
        { now := 7, hsOk := false, trigOk := true, readData := some zeroFrame }).1 =
      Except.error ("handshake write failed") ∧
    (read_record exTable { start_time := some 100, connect_initialized := 0 }
        (runEvents usbInit [HotplugEvent.arrived okArrival])
        { now := 7, hsOk := false, trigOk := true, readData := some zeroFrame }).2.2 =
      [Sent.handshake ((({ start_time := some 100, connect_initialized := 0 } :
          ArexxState).start_time).getD 7) 1] ∧
    (read_record exTable { start_time := some 100, connect_initialized := 0 }
        (runEvents usbInit [HotplugEvent.arrived okArrival])
        { now := 7, hsOk := false, trigOk := true, readData := some zeroFrame }).2.1.connect_initialized = 0 ∧
    (read_record exTable { start_time := some 100, connect_initialized := 0 }
        (runEvents usbInit [HotplugEvent.arrived okArrival])
        { now := 7, hsOk := false, trigOk := true, readData := some zeroFrame }).2.1.start_time = none ∧
    (∀ inp2 : PollInput, inp2.hsOk = true →
      (read_record exTable
          (read_record exTable { start_time := some 100, connect_initialized := 0 }
            (runEvents usbInit [HotplugEvent.arrived okArrival])
            { now := 7, hsOk := false, trigOk := true, readData := some zeroFrame }).2.1
          (runEvents usbInit [HotplugEvent.arrived okArrival]) inp2).2.2 =
        [Sent.handshake inp2.now 1, Sent.trigger 1]) :=
  handshake_failure_not_recorded exTable
    (runEvents usbInit [HotplugEvent.arrived okArrival])
    { endpoints := goodEndpoints, handleGen := 1 }
    { start_time := some 100, connect_initialized := 0 }
    { now := 7, hsOk := false, trigOk := true, readData := some zeroFrame }
    (by decide) (by decide) (by decide)

/-! Snapshot consistency (C8). -/

/-- One hotplug transition preserves session consistency: the installed
handle always belongs to the current generation. -/
theorem applyEvent_consistent (s : UsbDevice) (e : HotplugEvent) (hc : usbConsistent s) :
    usbConsistent (applyEvent s e) := by
  cases e with
  | arrived env =>
      cases hsu : env.succeeds with
      | true =>
          obtain ⟨eps, hfe, he⟩ := device_arrived_succeeds env s hsu
          simp only [applyEvent]
          rw [he]
          intro i hi
          simp only [Option.some.injEq] at hi
          rw [← hi]
      | false =>
          obtain ⟨msg, he⟩ := device_arrived_fails env s hsu
          simp only [applyEvent]
          rw [he]
          exact hc
  | left ok =>
      simp only [applyEvent]
      unfold device_left
      split
      · exact hc
      · intro i hi
        simp at hi

/-- Session consistency holds in every reachable session state. -/
theorem runEvents_consistent (evs : List HotplugEvent) :
    usbConsistent (runEvents usbInit evs) := by
  have h : ∀ s : UsbDevice, usbConsistent s → usbConsistent (runEvents s evs) := by
    induction evs with
    | nil => exact fun s hs => hs
    | cons e evs ih =>
        intro s hs
        rw [runEvents_cons]
        exact ih _ (applyEvent_consistent s e hs)
  exact h usbInit (fun i hi => by simp [usbInit] at hi)

/-- C8 counterexample: read_record reads connect_count and inner under
two separate lock acquisitions; a departure plus completed arrival
interleaved between them pairs the generation-5 counter snapshot with
the generation-6 handle, so the call issues a trigger on the new handle
without any handshake for generation 6 — a torn combination the claim
rules out. -/
theorem torn_snapshot_counterexample :
    tornUsb1.connect_count = 5 ∧
    tornState.connect_initialized = 5 ∧
    tornUsb2.connect_count = 6 ∧
    tornUsb2.inner = some { endpoints := goodEndpoints, handleGen := 6 } ∧
    (read_record_two_locks exTable tornState tornUsb1 tornUsb2 tornInput).2.2 =
      [Sent.trigger 6] ∧
    (∀ x ∈ (read_record_two_locks exTable tornState tornUsb1 tornUsb2 tornInput).2.2,
      isHandshake x = false) := by
  refine ⟨rfl, rfl, rfl, rfl, rfl, ?_⟩
  decide

/-- C8 (amended): read_record takes two separate lock acquisitions, so
atomicity of the generation/state snapshot holds only when no hotplug
transition interleaves between them; in that interleaving-free case,
for any reachable session state, every frame the call sends is issued
on the handle of the observed current generation — no torn pairing. -/
theorem no_torn_pairing_without_interleaving
    (table : ℕ → Option ℚ) (st : ArexxState) (inp : PollInput) (evs : List HotplugEvent)
    (x : Sent) (hx : x ∈ (read_record table st (runEvents usbInit evs) inp).2.2) :
    sentGen x = (runEvents usbInit evs).connect_count := by
  have hc := runEvents_consistent evs
  cases hin : (runEvents usbInit evs).inner with
  | none =>
      rw [read_record_detached _ _ _ _ hin] at hx
      simp at hx
  | some i =>
      have hgen : i.handleGen = (runEvents usbInit evs).connect_count := hc i hin
      by_cases hne : st.connect_initialized ≠ (runEvents usbInit evs).connect_count
      · by_cases hhs : inp.hsOk = true
        · rw [read_record_fresh _ _ _ _ _ hin hne hhs] at hx
          simp only [List.mem_cons, List.mem_singleton, List.not_mem_nil, or_false] at hx
          rcases hx with hx | hx <;> rw [hx, ← hgen] <;> rfl
        · rw [read_record_fresh_fail _ _ _ _ _ hin hne (by simpa using hhs)] at hx
          simp only [List.mem_singleton] at hx
          rw [hx, ← hgen]
          rfl
      · rw [read_record_initialized _ _ _ _ _ hin (not_ne_iff.mp hne)] at hx
        simp only [List.mem_singleton] at hx
        rw [hx, ← hgen]
        rfl

/-- Witness for C8: the trigger of a poll against the reachable
generation-1 session is issued on the generation-1 handle. -/
theorem no_torn_pairing_witness :
    sentGen (Sent.trigger 1) =
      (runEvents usbInit [HotplugEvent.arrived okArrival]).connect_count :=
  no_torn_pairing_without_interleaving exTable tornState tornInput
    [HotplugEvent.arrived okArrival] (Sent.trigger 1) (by decide)

end ArexxTap
